import Mathlib

/-!
Verification of the BootcampsAPI authentication flow and bootcamp
controllers against their natural-language specification.

The controllers under `src/controllers/auth.js` and
`src/controllers/bootcamps.js` are embedded shallowly: each Express
handler becomes a pure Lean function from the request data and the
current document store to the new store together with the responses
and errors it emits.  External effects are made explicit inputs:
`Date.now()` becomes a `now : Nat` parameter (milliseconds), the random
reset token and the mail-transport outcome become parameters, and the
Mongo document store becomes a `List` of records.
-/

namespace BootcampsAPI

/-- An `ErrorResponse(message, statusCode)` as constructed by the
controllers and handed to `next`. -/
structure ErrorResponse where
  message : String
  statusCode : Nat
deriving DecidableEq, Repr

/-- A persisted User record (Credential Store).  The `password` field
holds the stored (hashed) password; `resetPasswordToken` holds the
sha256 hash of an outstanding reset token and `resetPasswordExpire` its
absolute expiry timestamp in milliseconds, both absent when no reset is
pending. -/
structure User where
  id : String
  name : String
  email : String
  password : String
  role : String
  resetPasswordToken : Option String := none
  resetPasswordExpire : Option Nat := none
deriving DecidableEq, Repr

/-- The Credential Store: the persisted User collection. -/
abbrev Store := List User

/-- Model of node's `crypto.createHash('sha256').update(s).digest('hex')`,
an external library primitive.  It is modelled as a deterministic tagged
encoding; the controllers only ever compare its outputs for equality. -/
def sha256Hex (s : String) : String := "sha256:" ++ s

/-- Modelled from the spec: the User model's pre-save password hashing
hook (`models/User.js`, not under `src/`) — "password: stored only as a
salted one-way hash" applied "before persistence".  The slow salted
bcrypt hash is modelled as a tagged encoding whose output is never equal
to its input; salt and cost factor are not observable by the
controllers. -/
def hashPassword (pw : String) : String := "bcrypt:" ++ pw

/-- Modelled from the spec: `user.matchPassword(entered)`
(`models/User.js`, not under `src/`) — "verification is a
constant-time-equivalent comparison against the stored hash (never
plaintext comparison)". -/
def matchPassword (u : User) (entered : String) : Bool :=
  hashPassword entered == u.password

/-- Modelled from the spec: `user.getSignedJwtToken()`
(`models/User.js`, not under `src/`) — the Token Issuer "produces a
signed, self-contained token encoding identity and an expiry".  The
claims never inspect the token's contents, only that one is issued. -/
def getSignedJwtToken (u : User) : String := "jwt:" ++ u.id

/-- Truthiness of an optional request-body field, as JavaScript's
`!field` sees it: absent or the empty string is falsy. -/
def isTruthy : Option String → Bool
  | none => false
  | some s => !(s == "")

/-- `User.findOne({email})`: first stored User with the given email. -/
def findOneByEmail (store : Store) (email : String) : Option User :=
  store.find? (fun u => u.email == email)

/-- `user.save()`: persist `u` by replacing the stored record carrying
its id. -/
def saveUser (store : Store) (u : User) : Store :=
  store.map (fun v => if v.id == u.id then u else v)

/-- A response sent by the login / register / reset-password handlers:
either an `ErrorResponse` forwarded to `next`, or `sendTokenResponse`
(status code, signed token, `{success: true, token}` body plus token
cookie). -/
inductive AuthResponse where
  | errorResponse (message : String) (statusCode : Nat)
  | tokenResponse (statusCode : Nat) (token : String)
deriving DecidableEq, Repr

/-- `exports.register` (`src/controllers/auth.js:10-22`): `User.create`
persists the new User — running the spec-modelled pre-save hashing hook
on the supplied plaintext password — then `sendTokenResponse(user, 200,
res)`.  `newId` stands for the store-assigned identifier. -/
def register (store : Store) (newId name email password role : String) :
    Store × AuthResponse :=
  let user : User :=
    { id := newId, name := name, email := email,
      password := hashPassword password, role := role }
  (store ++ [user], .tokenResponse 200 (getSignedJwtToken user))

/-- `exports.login` (`src/controllers/auth.js:27-50`): validate the two
fields, look the User up by email, verify the password, and either
forward an `ErrorResponse` or issue a session token. -/
def login (store : Store) (email password : Option String) : AuthResponse :=
  if !(isTruthy email && isTruthy password) then
    .errorResponse "Please provide a email and password" 400
  else
    match findOneByEmail store (email.getD "") with
    | none => .errorResponse "Invalid credentials" 401
    | some user =>
      if matchPassword user (password.getD "") then
        .tokenResponse 200 (getSignedJwtToken user)
      else
        .errorResponse "Invalid credentials" 401

/-- The JSON payload of a `data:` field sent by the forgot-password
handler: either the literal string `'Email sent'` or a whole User
record. -/
inductive JsonData where
  | messageData (s : String)
  | userData (u : User)
deriving DecidableEq, Repr

/-- One observable step of the forgot-password handler, in execution
order: a `user.save(...)` persisting a record, a `sendEmail(...)` call,
a `res.status(...).json(...)` response, or an `ErrorResponse` forwarded
to `next`. -/
inductive Event where
  | saveEvent (u : User)
  | sendEmailEvent (email subject message : String)
  | responseEvent (statusCode : Nat) (success : Bool) (data : JsonData)
  | nextErrorEvent (e : ErrorResponse)
deriving DecidableEq, Repr

/-- Holds of the response events in a handler's trace. -/
def isResponseEvent : Event → Bool
  | .responseEvent _ _ _ => true
  | _ => false

/-- Modelled from the spec: `user.getResetPasswordToken()`
(`models/User.js`, not under `src/`) — "Generates a random token,
stores only its one-way hash plus an expiry (10 minutes from issuance)"
on the in-memory record and returns the plaintext token.  The random
token is an explicit input `resetToken`. -/
def getResetPasswordToken (u : User) (resetToken : String) (now : Nat) :
    User × String :=
  ({ u with resetPasswordToken := some (sha256Hex resetToken),
            resetPasswordExpire := some (now + 10 * 60 * 1000) },
   resetToken)

/-- `exports.forgotPassword` (`src/controllers/auth.js:67-117`).  The
handler looks the User up by email, sets and persists the reset-token
fields, builds the reset URL and mail message, and attempts dispatch;
`mailOk` is the Mailer's outcome (`sendEmail` resolving or throwing).
On mail failure both fields are rolled back to absent, persisted again,
and a 500 error is forwarded.  Returns the final store and the ordered
trace of saves, mail calls, responses and forwarded errors. -/
def forgotPassword (store : Store) (reqEmail resetTokenRand : String)
    (now : Nat) (protocol host : String) (mailOk : Bool) :
    Store × List Event :=
  match findOneByEmail store reqEmail with
  | none =>
    (store,
     [.nextErrorEvent
        ⟨"There is no user with the email " ++ reqEmail, 404⟩])
  | some user =>
    let tokenised := getResetPasswordToken user resetTokenRand now
    let user1 := tokenised.1
    let resetToken := tokenised.2
    let store1 := saveUser store user1
    let resetUrl :=
      protocol ++ "://" ++ host ++ "/api/v1/auth/resetpassword/" ++
        resetToken
    let message :=
      "You are reciving this email because you (or some one else) has\n  requested the reset of a password. Please make a PUT request to: \n\n " ++
        resetUrl
    if mailOk then
      (store1,
       [.saveEvent user1,
        .sendEmailEvent user1.email "Password reset token" message,
        .responseEvent 200 true (.messageData "Email sent"),
        .responseEvent 200 true (.userData user1)])
    else
      let user2 :=
        { user1 with resetPasswordToken := none,
                     resetPasswordExpire := none }
      (saveUser store1 user2,
       [.saveEvent user1,
        .sendEmailEvent user1.email "Password reset token" message,
        .saveEvent user2,
        .nextErrorEvent ⟨"Email could not be sent", 500⟩])

/-- The Mongo query filter of `exports.resetPassword`:
`{resetPasswordToken: h, resetPasswordExpire: {$gt: Date.now()}}` — the
stored hash equals `h` and the expiry field is present and strictly
greater than `now` (a missing field never satisfies `$gt`). -/
def resetQueryMatches (h : String) (now : Nat) (u : User) : Bool :=
  u.resetPasswordToken == some h &&
    (match u.resetPasswordExpire with
     | some e => decide (now < e)
     | none => false)

/-- `User.findOne({resetPasswordToken, resetPasswordExpire: {$gt: now}})`. -/
def findOneByResetToken (store : Store) (h : String) (now : Nat) :
    Option User :=
  store.find? (resetQueryMatches h now)

/-- `exports.resetPassword` (`src/controllers/auth.js:122-145`): hash
the token from the URL, look up a User whose stored hash matches and
whose expiry is still in the future; on failure forward
`ErrorResponse('Invalid Token', 400)`, on success set the new password
(the spec-modelled pre-save hook re-hashes it), clear both reset
fields, persist, and issue a fresh session token. -/
def resetPassword (store : Store) (resettoken newPassword : String)
    (now : Nat) : Store × AuthResponse :=
  let resetPasswordToken := sha256Hex resettoken
  match findOneByResetToken store resetPasswordToken now with
  | none => (store, .errorResponse "Invalid Token" 400)
  | some user =>
    let user1 :=
      { user with password := hashPassword newPassword,
                  resetPasswordToken := none,
                  resetPasswordExpire := none }
    (saveUser store user1, .tokenResponse 200 (getSignedJwtToken user1))

/-- A persisted Bootcamp record, reduced to the fields the embedded
controllers read: its id and the id of the owning user (Mongo stores
the owner as an ObjectId; the controllers compare
`bootcamp.user.toString()` with `req.user.id`, so both are strings
here). -/
structure Bootcamp where
  id : String
  user : String
deriving DecidableEq, Repr

/-- The authenticated caller injected by the auth middleware:
`req.user.id` and `req.user.role`. -/
structure ReqUser where
  id : String
  role : String
deriving DecidableEq, Repr

/-- A response sent by the bootcamp controllers: an `ErrorResponse`
forwarded to `next`, `201 {success, data: bootcamp}` from create, or
`200 {success, data: {}}` from delete. -/
inductive BootcampResponse where
  | errorResponse (message : String) (statusCode : Nat)
  | createdResponse (statusCode : Nat) (b : Bootcamp)
  | deletedResponse (statusCode : Nat)
deriving DecidableEq, Repr

/-- `exports.createBootcamp` (`src/controllers/bootcamps.js:35-58`):
look for a bootcamp already published by the caller
(`Bootcamp.findOne({user: req.user.id})`); if one exists and the caller
is not an admin, forward a 400 error; otherwise `Bootcamp.create` a new
record owned by the caller (`newId` stands for the store-assigned
identifier). -/
def createBootcamp (store : List Bootcamp) (req : ReqUser)
    (newId : String) : List Bootcamp × BootcampResponse :=
  let publishedBootcamp := store.find? (fun b => b.user == req.id)
  if publishedBootcamp.isSome && !(req.role == "admin") then
    (store,
     .errorResponse
       ("The user with id: " ++ req.id ++
          " has already published a bootcamp") 400)
  else
    let bootcamp : Bootcamp := { id := newId, user := req.id }
    (store ++ [bootcamp], .createdResponse 201 bootcamp)

/-- `exports.deleteBootcamp` (`src/controllers/bootcamps.js:96-121`):
`Bootcamp.findByIdAndDelete(req.params.id)` removes the document from
the store and returns it (or null) — this happens before any check.
If nothing was found, forward a 404; if the caller is neither the owner
nor an admin, forward a 401 — the record is already gone from the
store either way.  The trailing `bootcamp.remove()` acts on the
already-deleted document and leaves the store unchanged. -/
def deleteBootcamp (store : List Bootcamp) (req : ReqUser)
    (reqParamsId : String) : List Bootcamp × BootcampResponse :=
  match store.find? (fun b => b.id == reqParamsId) with
  | none =>
    (store,
     .errorResponse
       ("Bootcamp not found with id of: " ++ reqParamsId) 404)
  | some bootcamp =>
    let store1 := store.eraseP (fun b => b.id == reqParamsId)
    if !(bootcamp.user == req.id) && !(req.role == "admin") then
      (store1,
       .errorResponse
         ("User " ++ req.id ++
            " is not authorized to delete this bootcamp") 401)
    else
      (store1, .deletedResponse 200)

/-- A sample registered user, used for concrete witnesses. -/
def annUser : User :=
  { id := "u1", name := "Ann", email := "ann@x.com",
    password := hashPassword "secret1", role := "user" }

/-- A sample user with a pending password reset (token hash stored,
expiry at 1000 ms), used for concrete witnesses. -/
def resetUser : User :=
  { id := "u2", name := "Bob", email := "bob@x.com",
    password := hashPassword "pw", role := "user",
    resetPasswordToken := some (sha256Hex "tok"),
    resetPasswordExpire := some 1000 }

/-- A sample bootcamp owned by user `u1`, used for concrete witnesses. -/
def sampleBootcamp : Bootcamp := { id := "b1", user := "u1" }

/-- Replacing by id keeps only `u` at its id: any member of
`saveUser store u` whose id equals `u.id` is `u` itself. -/
theorem mem_saveUser_id (store : Store) (u v : User)
    (hv : v ∈ saveUser store u) (hid : v.id = u.id) : v = u := by
  obtain ⟨w, hw, hfw⟩ := List.mem_map.mp hv
  by_cases h : (w.id == u.id) = true
  · rw [if_pos h] at hfw
    exact hfw.symm
  · rw [if_neg h] at hfw
    subst hfw
    exact absurd (by simp [hid]) h

/-- If any record with `u.id` is stored, `saveUser store u` contains
`u`. -/
theorem saveUser_mem_self (store : Store) (u w : User)
    (hw : w ∈ store) (hid : w.id = u.id) : u ∈ saveUser store u :=
  List.mem_map.mpr ⟨w, hw, by simp [hid]⟩

/-- C7: for all Register inputs the stored User record's password field
holds the hash of the supplied plaintext and is never equal to the
plaintext itself. -/
theorem register_stores_hashed_password
    (store : Store) (newId name email password role : String) :
    ∃ u : User,
      register store newId name email password role =
        (store ++ [u], .tokenResponse 200 (getSignedJwtToken u)) ∧
      u.password = hashPassword password ∧
      u.password ≠ password := by
  refine ⟨_, rfl, rfl, fun h => ?_⟩
  have hlen := congrArg String.length h
  rw [hashPassword, String.length_append,
    show "bcrypt:".length = 7 from rfl] at hlen
  omega

/-- C2: Login fails with status 400 when either credential field is
absent; a non-existent email and a wrong password both produce the
error response with message `Invalid credentials` and status 401, and
any two such failures are byte-identical. -/
theorem login_invalid_credentials_uniform (store store' : Store)
    (email password email' password' : Option String) :
    (isTruthy email = false ∨ isTruthy password = false →
      login store email password =
        .errorResponse "Please provide a email and password" 400) ∧
    (isTruthy email = true → isTruthy password = true →
      findOneByEmail store (email.getD "") = none →
      login store email password =
        .errorResponse "Invalid credentials" 401) ∧
    (∀ user, isTruthy email = true → isTruthy password = true →
      findOneByEmail store (email.getD "") = some user →
      matchPassword user (password.getD "") = false →
      login store email password =
        .errorResponse "Invalid credentials" 401) ∧
    (∀ user', isTruthy email = true → isTruthy password = true →
      isTruthy email' = true → isTruthy password' = true →
      findOneByEmail store (email.getD "") = none →
      findOneByEmail store' (email'.getD "") = some user' →
      matchPassword user' (password'.getD "") = false →
      login store email password = login store' email' password') := by
  refine ⟨?_, ?_, ?_, ?_⟩
  · rintro (h | h) <;> simp [login, h]
  · intro he hp hf
    simp [login, he, hp, hf]
  · intro user he hp hf hm
    simp [login, he, hp, hf, hm]
  · intro user' he hp he' hp' hf hf' hm'
    simp [login, he, hp, hf, he', hp', hf', hm']

/-- Witness for C2: concrete instances of each failure case over the
sample store, including the byte-identical pair. -/
theorem login_invalid_credentials_uniform_witness :
    login [annUser] (some "ann@x.com") none =
      .errorResponse "Please provide a email and password" 400 ∧
    login [annUser] (some "bob@x.com") (some "secret1") =
      .errorResponse "Invalid credentials" 401 ∧
    login [annUser] (some "ann@x.com") (some "wrong") =
      .errorResponse "Invalid credentials" 401 ∧
    login [annUser] (some "bob@x.com") (some "secret1") =
      login [annUser] (some "ann@x.com") (some "wrong") := by
  refine ⟨?_, ?_, ?_, ?_⟩
  · exact (login_invalid_credentials_uniform [annUser] [annUser]
      (some "ann@x.com") none (some "x") (some "x")).1 (Or.inr rfl)
  · exact (login_invalid_credentials_uniform [annUser] [annUser]
      (some "bob@x.com") (some "secret1") (some "x") (some "x")).2.1
      rfl rfl rfl
  · exact (login_invalid_credentials_uniform [annUser] [annUser]
      (some "ann@x.com") (some "wrong") (some "x") (some "x")).2.2.1
      annUser rfl rfl rfl rfl
  · exact (login_invalid_credentials_uniform [annUser] [annUser]
      (some "bob@x.com") (some "secret1") (some "ann@x.com")
      (some "wrong")).2.2.2
      annUser rfl rfl rfl rfl rfl rfl rfl

/-- C8: a ForgotPassword request whose email matches no stored User
leaves the store unchanged and forwards exactly the 404 error whose
message is `There is no user with the email ` followed by the supplied
email. -/
theorem forgotPassword_unknown_email (store : Store)
    (reqEmail resetTokenRand : String) (now : Nat)
    (protocol host : String) (mailOk : Bool)
    (h : findOneByEmail store reqEmail = none) :
    forgotPassword store reqEmail resetTokenRand now protocol host mailOk =
      (store,
       [.nextErrorEvent
          ⟨"There is no user with the email " ++ reqEmail, 404⟩]) := by
  simp [forgotPassword, h]

/-- Witness for C8: the spec's scenario with `unknown@x.com`. -/
theorem forgotPassword_unknown_email_witness :
    forgotPassword [annUser] "unknown@x.com" "tok" 0 "http" "apihost" true =
      ([annUser],
       [.nextErrorEvent
          ⟨"There is no user with the email unknown@x.com", 404⟩]) := by
  have h := forgotPassword_unknown_email [annUser] "unknown@x.com" "tok"
    0 "http" "apihost" true rfl
  exact h.trans (by decide)

/-- C10: a non-admin caller who already owns a bootcamp gets a 400
error and the store is unchanged; an admin caller always creates a new
bootcamp they own, appended to the store. -/
theorem createBootcamp_one_per_publisher (store : List Bootcamp)
    (req : ReqUser) (newId : String) :
    ((∃ b ∈ store, b.user = req.id) → req.role ≠ "admin" →
      createBootcamp store req newId =
        (store,
         .errorResponse
           ("The user with id: " ++ req.id ++
              " has already published a bootcamp") 400)) ∧
    (req.role = "admin" →
      createBootcamp store req newId =
        (store ++ [{ id := newId, user := req.id }],
         .createdResponse 201 { id := newId, user := req.id })) := by
  constructor
  · rintro ⟨b, hb, hbu⟩ hrole
    have hsome : (store.find? (fun b => b.user == req.id)).isSome = true :=
      List.find?_isSome.mpr ⟨b, hb, by simp [hbu]⟩
    have hrole' : (req.role == "admin") = false := by simpa using hrole
    simp [createBootcamp, hsome, hrole']
  · intro hrole
    simp [createBootcamp, hrole]

/-- Witness for C10: user `u1` already owns `sampleBootcamp`, so a
second create as publisher fails with 400 and no record is appended,
while the same request as admin appends a second record. -/
theorem createBootcamp_one_per_publisher_witness :
    createBootcamp [sampleBootcamp] ⟨"u1", "publisher"⟩ "b2" =
      ([sampleBootcamp],
       .errorResponse
         "The user with id: u1 has already published a bootcamp" 400) ∧
    createBootcamp [sampleBootcamp] ⟨"u1", "admin"⟩ "b2" =
      ([sampleBootcamp, { id := "b2", user := "u1" }],
       .createdResponse 201 { id := "b2", user := "u1" }) := by
  constructor
  · exact ((createBootcamp_one_per_publisher [sampleBootcamp]
      ⟨"u1", "publisher"⟩ "b2").1
      ⟨sampleBootcamp, by simp, rfl⟩ (by decide)).trans (by decide)
  · exact (createBootcamp_one_per_publisher [sampleBootcamp]
      ⟨"u1", "admin"⟩ "b2").2 rfl

/-- C9: deleting an existing bootcamp as a non-owner non-admin returns
the 401 authorization error, yet the record has already been removed:
the store the handler leaves behind is the original with the bootcamp
erased, one element shorter. -/
theorem deleteBootcamp_removes_before_authz (store : List Bootcamp)
    (req : ReqUser) (reqParamsId : String) (b : Bootcamp)
    (hfind : store.find? (fun x => x.id == reqParamsId) = some b)
    (howner : b.user ≠ req.id) (hrole : req.role ≠ "admin") :
    deleteBootcamp store req reqParamsId =
      (store.eraseP (fun x => x.id == reqParamsId),
       .errorResponse
         ("User " ++ req.id ++
            " is not authorized to delete this bootcamp") 401) ∧
    (deleteBootcamp store req reqParamsId).1.length + 1 = store.length := by
  have h1 : (b.user == req.id) = false := by simpa using howner
  have h2 : (req.role == "admin") = false := by simpa using hrole
  have hmain : deleteBootcamp store req reqParamsId =
      (store.eraseP (fun x => x.id == reqParamsId),
       .errorResponse
         ("User " ++ req.id ++
            " is not authorized to delete this bootcamp") 401) := by
    simp [deleteBootcamp, hfind, h1, h2]
  refine ⟨hmain, ?_⟩
  rw [hmain]
  have hpb := List.find?_some (p := fun x => x.id == reqParamsId)
    (a := b) hfind
  exact List.length_eraseP_add_one (p := fun x => x.id == reqParamsId)
    (List.mem_of_find?_eq_some hfind) hpb

/-- Witness for C9: publisher `u1` deletes the bootcamp owned by `u2`;
the handler answers 401 but the store is left empty. -/
theorem deleteBootcamp_removes_before_authz_witness :
    deleteBootcamp [{ id := "b9", user := "u2" }] ⟨"u1", "publisher"⟩ "b9" =
      ([],
       .errorResponse
         "User u1 is not authorized to delete this bootcamp" 401) ∧
    (deleteBootcamp [{ id := "b9", user := "u2" }] ⟨"u1", "publisher"⟩
        "b9").1.length + 1 = 1 := by
  have h := deleteBootcamp_removes_before_authz
    [{ id := "b9", user := "u2" }] ⟨"u1", "publisher"⟩ "b9"
    { id := "b9", user := "u2" } rfl (by decide) (by decide)
  exact ⟨h.1.trans (by decide), h.2⟩

/-- C6: on the success path of ForgotPassword the handler emits TWO
responses, not one — after the `Email sent` response inside the try
block, control falls through to the trailing `res.status(200).json`
carrying the whole user record. -/
theorem forgotPassword_emits_two_responses :
    (forgotPassword [annUser] "ann@x.com" "tok" 0 "http" "apihost"
        true).2.countP isResponseEvent = 2 ∧
    (forgotPassword [annUser] "ann@x.com" "tok" 0 "http" "apihost"
        true).2.getLast? =
      some (.responseEvent 200 true (.userData
        { annUser with resetPasswordToken := some (sha256Hex "tok"),
                       resetPasswordExpire := some 600000 })) := by
  constructor <;> rfl

/-- The reset-password query filter holds exactly of users whose stored
token hash matches and whose expiry field is present and strictly
greater than `now`. -/
theorem resetQueryMatches_iff (h : String) (now : Nat) (u : User) :
    resetQueryMatches h now u = true ↔
      u.resetPasswordToken = some h ∧
        ∃ e, u.resetPasswordExpire = some e ∧ now < e := by
  unfold resetQueryMatches
  cases hexp : u.resetPasswordExpire with
  | none => simp [hexp]
  | some e => simp [hexp]

/-- C1: ResetPassword succeeds (issues a 200 token response) exactly
when some stored User's `resetPasswordToken` equals the sha256 hash of
the presented token and that User's `resetPasswordExpire` is strictly
in the future; whenever no such User exists the store is unchanged and
the handler fails with the invalid-or-expired-token error, message
`Invalid Token`, status 400. -/
theorem resetPassword_success_iff (store : Store)
    (resettoken newPassword : String) (now : Nat) :
    ((∃ t, (resetPassword store resettoken newPassword now).2 =
        .tokenResponse 200 t) ↔
      ∃ u ∈ store, u.resetPasswordToken = some (sha256Hex resettoken) ∧
        ∃ e, u.resetPasswordExpire = some e ∧ now < e) ∧
    ((¬ ∃ u ∈ store,
        u.resetPasswordToken = some (sha256Hex resettoken) ∧
          ∃ e, u.resetPasswordExpire = some e ∧ now < e) →
      resetPassword store resettoken newPassword now =
        (store, .errorResponse "Invalid Token" 400)) := by
  have key : (findOneByResetToken store (sha256Hex resettoken) now).isSome
        = true ↔
      ∃ u ∈ store, u.resetPasswordToken = some (sha256Hex resettoken) ∧
        ∃ e, u.resetPasswordExpire = some e ∧ now < e := by
    rw [findOneByResetToken, List.find?_isSome]
    exact exists_congr fun u =>
      and_congr_right fun _ => resetQueryMatches_iff _ _ _
  cases hfind : findOneByResetToken store (sha256Hex resettoken) now with
  | none =>
    rw [hfind] at key
    simp only [Option.isSome_none, Bool.false_eq_true, false_iff] at key
    constructor
    · simp only [resetPassword, hfind]
      constructor
      · rintro ⟨t, ht⟩
        exact absurd ht (by simp)
      · intro hex
        exact absurd hex key
    · intro _
      simp [resetPassword, hfind]
  | some u =>
    rw [hfind] at key
    simp only [Option.isSome_some, true_iff] at key
    constructor
    · simp only [resetPassword, hfind]
      exact ⟨fun _ => key, fun _ => ⟨_, rfl⟩⟩
    · intro hex
      exact absurd key hex

/-- Witness for C1: `resetUser` holds the hash of `tok` expiring at
1000 ms, so resetting at 5 ms succeeds while resetting at 2000 ms
fails with the 400 error. -/
theorem resetPassword_success_iff_witness :
    (∃ t, (resetPassword [resetUser] "tok" "newpw" 5).2 =
      .tokenResponse 200 t) ∧
    resetPassword [resetUser] "tok" "newpw" 2000 =
      ([resetUser], .errorResponse "Invalid Token" 400) := by
  constructor
  · exact (resetPassword_success_iff [resetUser] "tok" "newpw" 5).1.mpr
      ⟨resetUser, by simp, rfl, 1000, rfl, by decide⟩
  · refine (resetPassword_success_iff [resetUser] "tok" "newpw" 2000).2 ?_
    rintro ⟨u, hu, htok, e, hexp, hlt⟩
    rw [List.mem_singleton] at hu
    subst hu
    rw [show resetUser.resetPasswordExpire = some 1000 from rfl] at hexp
    injection hexp with he
    omega

/-- C4: when ResetPassword succeeds — and the presented token's hash is
held by at most one stored User — the persisted store contains the
reset User with both reset fields cleared, no stored User holds that
token hash any more, and replaying the same token fails with the
`Invalid Token` 400 error at any later time, leaving the store
unchanged. -/
theorem resetPassword_single_use (store store' : Store)
    (resettoken newPassword newPassword2 : String) (now now2 : Nat)
    (t : String)
    (hrun : resetPassword store resettoken newPassword now =
      (store', .tokenResponse 200 t))
    (huniq : ∀ v ∈ store, ∀ w ∈ store,
      v.resetPasswordToken = some (sha256Hex resettoken) →
      w.resetPasswordToken = some (sha256Hex resettoken) → v = w) :
    (∃ u' ∈ store', u'.resetPasswordToken = none ∧
        u'.resetPasswordExpire = none ∧ getSignedJwtToken u' = t) ∧
    (∀ v ∈ store', v.resetPasswordToken ≠ some (sha256Hex resettoken)) ∧
    resetPassword store' resettoken newPassword2 now2 =
      (store', .errorResponse "Invalid Token" 400) := by
  cases hfind : findOneByResetToken store (sha256Hex resettoken) now with
  | none =>
    rw [resetPassword] at hrun
    simp only [hfind, Prod.mk.injEq] at hrun
    exact absurd hrun.2 (by simp)
  | some u =>
    rw [resetPassword] at hrun
    simp only [hfind, Prod.mk.injEq, AuthResponse.tokenResponse.injEq,
      true_and] at hrun
    obtain ⟨hst, ht⟩ := hrun
    have hu_mem : u ∈ store :=
      List.mem_of_find?_eq_some
        (p := resetQueryMatches (sha256Hex resettoken) now) hfind
    have hu_match := List.find?_some
      (p := resetQueryMatches (sha256Hex resettoken) now) (a := u) hfind
    have hu_tok : u.resetPasswordToken = some (sha256Hex resettoken) :=
      ((resetQueryMatches_iff _ _ _).mp hu_match).1
    have hnot : ∀ v ∈ store', v.resetPasswordToken ≠
        some (sha256Hex resettoken) := by
      intro v hv hcontra
      rw [← hst] at hv
      obtain ⟨w, hw, hfw⟩ := List.mem_map.mp hv
      by_cases hid : (w.id == u.id) = true
      · rw [if_pos hid] at hfw
        rw [← hfw] at hcontra
        exact absurd hcontra (by simp)
      · rw [if_neg hid] at hfw
        subst hfw
        have hwu := huniq w hw u hu_mem hcontra hu_tok
        subst hwu
        exact hid (by simp)
    refine ⟨?_, hnot, ?_⟩
    · refine ⟨_, ?_, rfl, rfl, ht⟩
      rw [← hst]
      exact saveUser_mem_self store _ u hu_mem rfl
    · have hnone : findOneByResetToken store' (sha256Hex resettoken) now2
          = none := by
        rw [findOneByResetToken, List.find?_eq_none]
        intro v hv hm
        exact hnot v hv ((resetQueryMatches_iff _ _ _).mp hm).1
      simp [resetPassword, hnone]

/-- Witness for C4: after `resetUser` successfully consumes `tok`,
presenting `tok` again fails with the 400 error. -/
theorem resetPassword_single_use_witness :
    resetPassword (resetPassword [resetUser] "tok" "np" 5).1 "tok"
        "np2" 99 =
      ((resetPassword [resetUser] "tok" "np" 5).1,
       .errorResponse "Invalid Token" 400) := by
  have h := resetPassword_single_use [resetUser]
    (resetPassword [resetUser] "tok" "np" 5).1 "tok" "np" "np2" 5 99
    "jwt:u2" rfl (by decide)
  exact h.2.2

/-- C3: when ForgotPassword finds the User but mail dispatch fails,
the handler persists the rollback — the final store contains the
User's record and every record carrying the User's id has both
`resetPasswordToken` and `resetPasswordExpire` absent — and the trace
ends with the forwarded `Email could not be sent` 500 error. -/
theorem forgotPassword_mail_failure_rollback (store : Store)
    (reqEmail resetTokenRand : String) (now : Nat)
    (protocol host : String) (u : User)
    (hfind : findOneByEmail store reqEmail = some u) :
    (∃ v ∈ (forgotPassword store reqEmail resetTokenRand now protocol
        host false).1,
      v.id = u.id ∧ v.resetPasswordToken = none ∧
        v.resetPasswordExpire = none) ∧
    (∀ v ∈ (forgotPassword store reqEmail resetTokenRand now protocol
        host false).1,
      v.id = u.id → v.resetPasswordToken = none ∧
        v.resetPasswordExpire = none) ∧
    (forgotPassword store reqEmail resetTokenRand now protocol host
        false).2.getLast? =
      some (.nextErrorEvent ⟨"Email could not be sent", 500⟩) := by
  have hu_mem : u ∈ store :=
    List.mem_of_find?_eq_some (p := fun v => v.email == reqEmail)
      (by rw [findOneByEmail] at hfind; exact hfind)
  simp only [forgotPassword, hfind, getResetPasswordToken]
  set u1 : User :=
    { u with resetPasswordToken := some (sha256Hex resetTokenRand),
             resetPasswordExpire := some (now + 10 * 60 * 1000) } with hu1
  set u2 : User :=
    { u1 with resetPasswordToken := none,
              resetPasswordExpire := none } with hu2
  have h1 : u1 ∈ saveUser store u1 :=
    saveUser_mem_self store u1 u hu_mem rfl
  have h2 : u2 ∈ saveUser (saveUser store u1) u2 :=
    saveUser_mem_self (saveUser store u1) u2 u1 h1 rfl
  refine ⟨⟨u2, h2, rfl, rfl, rfl⟩, ?_, rfl⟩
  intro v hv hid
  have hv2 : v = u2 := mem_saveUser_id (saveUser store u1) u2 v hv hid
  rw [hv2]
  exact ⟨rfl, rfl⟩

/-- Witness for C3: Ann requests a reset and the Mailer fails; the
final store holds her record with both reset fields absent and the
handler forwarded the 500 error. -/
theorem forgotPassword_mail_failure_rollback_witness :
    (∃ v ∈ (forgotPassword [annUser] "ann@x.com" "tok" 0 "http"
        "apihost" false).1,
      v.id = annUser.id ∧ v.resetPasswordToken = none ∧
        v.resetPasswordExpire = none) ∧
    (∀ v ∈ (forgotPassword [annUser] "ann@x.com" "tok" 0 "http"
        "apihost" false).1,
      v.id = annUser.id → v.resetPasswordToken = none ∧
        v.resetPasswordExpire = none) ∧
    (forgotPassword [annUser] "ann@x.com" "tok" 0 "http" "apihost"
        false).2.getLast? =
      some (.nextErrorEvent ⟨"Email could not be sent", 500⟩) :=
  forgotPassword_mail_failure_rollback [annUser] "ann@x.com" "tok" 0
    "http" "apihost" annUser rfl

/-- C5: in every ForgotPassword execution that reaches the Mailer, the
save persisting the reset-token hash and expiry occurs strictly
earlier in the trace than the `sendEmail` call. -/
theorem forgotPassword_saves_before_send (store : Store)
    (reqEmail resetTokenRand : String) (now : Nat)
    (protocol host : String) (mailOk : Bool)
    (i : Nat) (em subj msg : String)
    (hsend : (forgotPassword store reqEmail resetTokenRand now protocol
        host mailOk).2[i]? =
      some (.sendEmailEvent em subj msg)) :
    ∃ j u', j < i ∧
      (forgotPassword store reqEmail resetTokenRand now protocol host
          mailOk).2[j]? = some (.saveEvent u') ∧
      u'.resetPasswordToken = some (sha256Hex resetTokenRand) ∧
      u'.resetPasswordExpire = some (now + 10 * 60 * 1000) := by
  cases hfind : findOneByEmail store reqEmail with
  | none =>
    simp only [forgotPassword, hfind] at hsend
    rcases i with _ | i <;> simp at hsend
  | some u =>
    rcases i with _ | i
    · simp only [forgotPassword, hfind, getResetPasswordToken] at hsend
      cases mailOk <;> simp_all
    · refine ⟨0,
        { u with resetPasswordToken := some (sha256Hex resetTokenRand),
                 resetPasswordExpire := some (now + 10 * 60 * 1000) },
        Nat.succ_pos i, ?_, rfl, rfl⟩
      simp only [forgotPassword, hfind, getResetPasswordToken]
      cases mailOk <;> rfl

/-- Witness for C5: in Ann's successful forgot-password run the
`sendEmail` call sits at index 1 of the trace and the save persisting
her tokenised record sits at index 0. -/
theorem forgotPassword_saves_before_send_witness :
    ∃ j u', j < 1 ∧
      (forgotPassword [annUser] "ann@x.com" "tok" 0 "http" "apihost"
          true).2[j]? = some (.saveEvent u') ∧
      u'.resetPasswordToken = some (sha256Hex "tok") ∧
      u'.resetPasswordExpire = some (0 + 10 * 60 * 1000) :=
  forgotPassword_saves_before_send [annUser] "ann@x.com" "tok" 0
    "http" "apihost" true 1 "ann@x.com" "Password reset token"
    ("You are reciving this email because you (or some one else) has\n  requested the reset of a password. Please make a PUT request to: \n\n " ++
      "http://apihost/api/v1/auth/resetpassword/tok") rfl

end BootcampsAPI
